/-
Verification of the Lightberry AI SDK core: the authentication fallback
chain (`lightberry_ai/auth/authenticator.py`), the client-side quota error
mapping (`lightberry_ai/core/basic_client.py`, `lightberry_ai/core/tool_client.py`),
and the tool registry / session-controller machinery
(`examples/local_tool_responses.py`), as a shallow embedding in Lean 4.

External effects are made explicit parameters: the outcome of the remote
HTTP call is a `RemoteOutcome` value, the process environment is an `Env`
record of optional strings, and the functions return instrumented results
recording how often the local token synthesis and the network were used.
-/
import Mathlib

set_option linter.unusedVariables false

namespace LB

/-- Python truthiness of an optional string: `None` and the empty string
are falsy, every other string is truthy (models `if not X` on an
`os.environ.get` result or a JSON field). -/
def pyTruthy : Option String → Bool
  | none => false
  | some s => !s.isEmpty

/-- The Python expression `needle in hay` on strings: substring containment. -/
def pyIn (needle hay : String) : Bool :=
  decide (needle.toList <:+: hay.toList)

/-- The Python method `str.lower()`, character by character (ASCII case folding
suffices for the "quota" detection this development needs). -/
def pyLower (s : String) : String :=
  String.mk (s.data.map Char.toLower)

/-- The environment variables read at module load in
`authenticator.py` lines 19-22 (`LIGHTBERRY_API_KEY` is read but unused in
the control flow). -/
structure Env where
  livekit_api_key : Option String
  livekit_api_secret : Option String
  device_id : Option String
deriving Repr, DecidableEq

/-- The parsed JSON body of the remote authentication response
(fields accessed via `data.get(...)` in `authenticator.py` lines 97-107). -/
structure ApiData where
  success : Bool
  livekit_token : Option String
  room_name : Option String
  error : Option String
deriving Repr, DecidableEq

/-- Outcome of the HTTP POST in `get_credentials_from_api`: either some
exception was raised (connection failure, timeout, or a non-2xx status
via `response.raise_for_status()`), or a JSON body was obtained. -/
inductive RemoteOutcome where
  | raised
  | ok (data : ApiData)
deriving Repr, DecidableEq

/-- Abstracts `api.AccessToken(key, secret).with_identity(identity)
.with_name(name).with_grants(VideoGrants(room_join=True, room=room)).to_jwt()`
(`authenticator.py` lines 53-64) as an injective encoding of its inputs. -/
def to_jwt (api_key api_secret identity name room : String) : String :=
  String.intercalate "|" ["jwt", api_key, api_secret, identity, name, room]

/-- The message of the `ValueError` raised by `generate_token` when the
signing credentials are absent (`authenticator.py` line 50). -/
def configErrorMsg : String :=
  "LIVEKIT_API_KEY and LIVEKIT_API_SECRET must be set in .env file"

/-- The identity defaulting of `generate_token` (`authenticator.py`
lines 42-43): `if not identity: identity = f"python-user-..."`. -/
def defaultIdentity (identity : Option String) (room_name : String) : String :=
  if pyTruthy identity then identity.getD "" else "python-user-" ++ room_name

/-- The display-name defaulting of `generate_token` (`authenticator.py`
lines 45-46): `if not name: name = identity`. -/
def defaultName (name : Option String) (ident : String) : String :=
  if pyTruthy name then name.getD "" else ident

/-- Embeds `generate_token(room_name, identity=None, name=None)`
(`authenticator.py` lines 30-66): defaults falsy identity/name, raises
`ValueError` when `LIVEKIT_API_KEY` or `LIVEKIT_API_SECRET` is falsy,
otherwise returns the signed JWT. -/
def generate_token (env : Env) (room_name : String)
    (identity name : Option String) : Except String String :=
  if pyTruthy env.livekit_api_key && pyTruthy env.livekit_api_secret then
    Except.ok (to_jwt (env.livekit_api_key.getD "") (env.livekit_api_secret.getD "")
      (defaultIdentity identity room_name)
      (defaultName name (defaultIdentity identity room_name)) room_name)
  else
    Except.error configErrorMsg

/-- Result of `get_credentials_from_api`, instrumented with the number of
network requests performed. -/
structure FetchResult where
  token : Option String
  room_name : Option String
  networkCalls : Nat
deriving Repr, DecidableEq

/-- Embeds `get_credentials_from_api(participant_name)`
(`authenticator.py` lines 69-112): returns `(None, None)` without any
network request when `DEVICE_ID` is falsy; otherwise performs the POST and
returns `(token, room_name)` only when the response was obtained without
exception, carries a truthy `success` flag, and both `livekit_token` and
`room_name` are truthy; every other outcome yields `(None, None)`. -/
def get_credentials_from_api (env : Env) (remote : RemoteOutcome)
    (participant_name : String) : FetchResult :=
  if !pyTruthy env.device_id then
    ⟨none, none, 0⟩
  else
    match remote with
    | .raised => ⟨none, none, 1⟩
    | .ok data =>
      if data.success then
        if pyTruthy data.livekit_token && pyTruthy data.room_name then
          ⟨data.livekit_token, data.room_name, 1⟩
        else
          ⟨none, none, 1⟩
      else
        ⟨none, none, 1⟩

/-- Result of `authenticate`, instrumented with how many times local token
synthesis (`generate_token`) was attempted and how many network requests
were made. `result` is the `(token, room_name)` pair the Python function
returns, or the propagated exception message. -/
structure AuthResult where
  result : Except String (String × String)
  localAttempts : Nat
  networkCalls : Nat
deriving Repr

/-- Embeds `authenticate(participant_name, fallback_room_name)`
(`authenticator.py` lines 115-135): tries the remote fetch first; when both
returned fields are truthy it returns them, otherwise it calls
`generate_token(fallback_room_name, participant_name, participant_name)`
exactly once and returns `(token, fallback_room_name)`, propagating any
error `generate_token` raises. -/
def authenticate (env : Env) (remote : RemoteOutcome)
    (participant_name fallback_room_name : String) : AuthResult :=
  let f := get_credentials_from_api env remote participant_name
  if pyTruthy f.token && pyTruthy f.room_name then
    ⟨Except.ok (f.token.getD "", f.room_name.getD ""), 0, f.networkCalls⟩
  else
    match generate_token env fallback_room_name
        (some participant_name) (some participant_name) with
    | Except.ok t => ⟨Except.ok (t, fallback_room_name), 1, f.networkCalls⟩
    | Except.error e => ⟨Except.error e, 1, f.networkCalls⟩

/-- The full-success condition of the remote fetch: the call did not raise,
the body has a truthy `success` flag, and both `livekit_token` and
`room_name` are truthy (non-empty). -/
def remoteFullSuccess : RemoteOutcome → Bool
  | .raised => false
  | .ok d => d.success && pyTruthy d.livekit_token && pyTruthy d.room_name

/-- Embeds the `except` clause of `LightberryBasicClient.connect`
(`basic_client.py` lines 86-91) and `LBToolClient.connect`
(`tool_client.py` lines 155-160): an exception message from the
authentication step is mapped to "Quota reached." when its lowercased text
contains "quota", and re-raised unchanged otherwise. -/
def connect_error_mapping (e : String) : String :=
  if pyIn "quota" (pyLower e) then "Quota reached." else e

/-- Concrete environment: signing keys and device identifier all present. -/
def envFull : Env := ⟨some "LKkey", some "LKsecret", some "dev-1"⟩

/-- Concrete environment: signing keys present, `DEVICE_ID` unset. -/
def envNoDevice : Env := ⟨some "LKkey", some "LKsecret", none⟩

/-- Concrete environment: `DEVICE_ID` present, signing keys unset. -/
def envNoKeys : Env := ⟨none, none, some "dev-1"⟩

/-- Insertion-ordered association list modelling a Python `dict` keyed by
strings. `dictSet m k v` embeds `m[k] = v`: it replaces the entry for `k`
in place when one exists and appends at the end otherwise. -/
def dictSet {α : Type} : List (String × α) → String → α → List (String × α)
  | [], k, v => [(k, v)]
  | p :: rest, k, v =>
    if p.1 == k then (k, v) :: rest else p :: dictSet rest k v

/-- `dictGet m k` embeds `m.get(k)`: the value of the first entry for `k`. -/
def dictGet {α : Type} (m : List (String × α)) (k : String) : Option α :=
  (m.find? (fun p => p.1 == k)).map (fun p => p.2)

/-- Runs a sequence of registrations left to right (each decorated function
executes `TOOL_REGISTRY[name] = func`, `local_tool_responses.py` line 58). -/
def registerList {α : Type} (m : List (String × α))
    (regs : List (String × α)) : List (String × α) :=
  regs.foldl (fun acc p => dictSet acc p.1 p.2) m

/-- The keys of the registry are pairwise distinct (the dict invariant). -/
def keysNodup {α : Type} (m : List (String × α)) : Prop :=
  (m.map Prod.fst).Nodup

/-- Arguments of a tool invocation, as decoded from the JSON payload. -/
abbrev ToolArgs := List (String × String)

/-- A tool handler: consumes the arguments and either returns a payload or
raises (an `Except.error` carrying the stringified exception). -/
abbrev ToolHandler := ToolArgs → Except String String

/-- The tool registry: name-to-handler bindings
(`TOOL_REGISTRY`, `local_tool_responses.py` line 28). -/
abbrev ToolRegistry := List (String × ToolHandler)

/-- An inbound tool-call request decoded from the data channel. -/
structure InvocationRequest where
  tool_name : String
  arguments : ToolArgs

/-- The response envelope of the dispatcher. -/
structure InvocationResult where
  tool_name : String
  success : Bool
  payload : Option String
  error : Option String
deriving Repr, DecidableEq

/-- Modelled from the spec: the Tool Dispatcher of section 4.2 lives in
`lightberry_ai/core/tool_streaming.py`, which is not among the provided
sources (only its caller `tool_client.py` is). Following the algorithm of the spec: look the name up in the registry, returning a
`tool_not_found` failure when absent; invoke the handler; catch any
failure the handler raises and wrap it as `success=false` with the
stringified failure and the tool name preserved; wrap a normal return as
`success=true`. The registry is returned alongside the result to make
explicit that dispatch never mutates it. -/
def dispatch (reg : ToolRegistry) (req : InvocationRequest) :
    InvocationResult × ToolRegistry :=
  match dictGet reg req.tool_name with
  | none => (⟨req.tool_name, false, none, some "tool_not_found"⟩, reg)
  | some h =>
    match h req.arguments with
    | Except.ok p => (⟨req.tool_name, true, some p, none⟩, reg)
    | Except.error e => (⟨req.tool_name, false, none, some e⟩, reg)

/-- A registry holding one handler that always raises, for concrete runs. -/
def failHandler : ToolHandler := fun _ => Except.error "ValueError: boom"

/-- Concrete registry containing only `failHandler` under the name "boom". -/
def regWithFail : ToolRegistry := [("boom", failHandler)]

/-- Embeds `set_app_controller(controller)` (`local_tool_responses.py`
lines 33-36) as a transition on the module-global `_app_controller` state:
the body is the bare assignment `_app_controller = controller`, so the
new state is the argument, whatever the previous state was. -/
def set_app_controller {α : Type} (state : Option α)
    (controller : Option α) : Option α :=
  controller

/-- The global controller state after a sequence of
`set_app_controller` calls, starting from `s0`. -/
def applyControllerCalls {α : Type} (s0 : Option α)
    (calls : List (Option α)) : Option α :=
  calls.foldl set_app_controller s0

/-- The dictionary returned by the `end_session` handler
(`local_tool_responses.py` lines 325-330). -/
structure EndSessionResult where
  tool : String
  success : Bool
  farewell_message : String
  message : String
deriving Repr, DecidableEq

/-- Embeds the `end_session(farewell_message)` handler
(`local_tool_responses.py` lines 311-330), with the module-global
`_app_controller` passed explicitly. The blocking farewell delay is real
time and not modelled. The second component records whether
`request_disconnect()` was invoked: the handler guards it with
`if _app_controller:`, so it is invoked exactly when the controller
reference is bound. -/
def end_session {α : Type} (app_controller : Option α)
    (farewell_message : String) : EndSessionResult × Bool :=
  (⟨"end_session", true, farewell_message,
     "Session ending, disconnecting from room"⟩,
   app_controller.isSome)

/-! ## Shared lemmas -/

/-- A non-empty string is Python-truthy. -/
theorem pyTruthy_some_of_ne {s : String} (h : s ≠ "") :
    pyTruthy (some s) = true := by
  have he : s.isEmpty = false := by
    cases he : s.isEmpty
    · rfl
    · exact absurd ((String.isEmpty_iff s).mp he) h
  simp [pyTruthy, he]

/-- Whenever the remote fetch is not a full success (or `DEVICE_ID` is
falsy), `get_credentials_from_api` yields no token and no room name. -/
theorem get_credentials_fallback (env : Env) (remote : RemoteOutcome)
    (p : String)
    (h : remoteFullSuccess remote = false ∨ pyTruthy env.device_id = false) :
    (get_credentials_from_api env remote p).token = none ∧
    (get_credentials_from_api env remote p).room_name = none := by
  unfold get_credentials_from_api
  by_cases hd : pyTruthy env.device_id = true
  · rcases h with h | h
    · simp only [hd, Bool.not_true, Bool.false_eq_true, if_false]
      cases remote with
      | raised => exact ⟨rfl, rfl⟩
      | ok d =>
        simp only [remoteFullSuccess] at h
        by_cases hs : d.success = true
        · rw [hs] at h
          simp only [Bool.true_and] at h
          simp [hs, h]
        · simp [hs]
    · simp [h] at hd
  · simp only [Bool.not_eq_true] at hd
    simp [hd]

/-- With both signing credentials present, `generate_token` returns a
token. -/
theorem generate_token_ok_of_keys (env : Env) (room : String)
    (identity name : Option String)
    (hk : pyTruthy env.livekit_api_key = true)
    (hs : pyTruthy env.livekit_api_secret = true) :
    ∃ t, generate_token env room identity name = Except.ok t := by
  unfold generate_token
  rw [hk, hs]
  exact ⟨_, rfl⟩

/-- With a signing credential absent, `generate_token` raises the
configuration error. -/
theorem generate_token_config_error (env : Env) (room : String)
    (identity name : Option String)
    (h : pyTruthy env.livekit_api_key = false ∨
      pyTruthy env.livekit_api_secret = false) :
    generate_token env room identity name = Except.error configErrorMsg := by
  unfold generate_token
  rcases h with h | h <;> rw [h] <;> simp

/-- The only error `generate_token` ever raises is the configuration
error. -/
theorem generate_token_error_eq (env : Env) (room : String)
    (identity name : Option String) (e : String)
    (h : generate_token env room identity name = Except.error e) :
    e = configErrorMsg := by
  unfold generate_token at h
  by_cases hc : (pyTruthy env.livekit_api_key &&
      pyTruthy env.livekit_api_secret) = true
  · rw [if_pos hc] at h
    cases h
  · rw [if_neg hc] at h
    exact (Except.error.inj h).symm

/-- On any fallback-triggering fetch outcome, `authenticate` reduces to a
single `generate_token` attempt for the fallback room. -/
theorem authenticate_fallback_eq (env : Env) (remote : RemoteOutcome)
    (p r : String)
    (h : remoteFullSuccess remote = false ∨ pyTruthy env.device_id = false) :
    authenticate env remote p r =
      match generate_token env r (some p) (some p) with
      | Except.ok t =>
        ⟨Except.ok (t, r), 1, (get_credentials_from_api env remote p).networkCalls⟩
      | Except.error e =>
        ⟨Except.error e, 1, (get_credentials_from_api env remote p).networkCalls⟩ := by
  obtain ⟨h1, h2⟩ := get_credentials_fallback env remote p h
  simp [authenticate, h1, h2, pyTruthy]

/-! ## Claim theorems -/

/-- Claim C7: an exception raised during the authentication step of `connect()`
is replaced by the distinct "Quota reached." exception exactly when its
text contains "quota" case-insensitively; every other exception is
re-raised unchanged. -/
theorem connect_quota_error_mapping (e : String) :
    (connect_error_mapping e = "Quota reached." ↔
      pyIn "quota" (pyLower e) = true) ∧
    (pyIn "quota" (pyLower e) = false → connect_error_mapping e = e) := by
  constructor
  · constructor
    · intro h
      by_cases hq : pyIn "quota" (pyLower e) = true
      · exact hq
      · unfold connect_error_mapping at h
        rw [if_neg hq] at h
        subst h
        decide
    · intro h
      unfold connect_error_mapping
      rw [if_pos h]
  · intro h
    unfold connect_error_mapping
    rw [if_neg (by simp [h])]

/-- Witness for C7 at concrete exception texts: a quota-flavoured message
is mapped to "Quota reached.", any other message passes through. -/
theorem connect_quota_error_mapping_witness :
    connect_error_mapping "API Quota exceeded" = "Quota reached." ∧
    connect_error_mapping "connection timeout" = "connection timeout" :=
  ⟨(connect_quota_error_mapping "API Quota exceeded").1.mpr (by decide),
   (connect_quota_error_mapping "connection timeout").2 (by decide)⟩

/-- Claim C6: when the controller reference is still unset, `end_session` does
not invoke `request_disconnect` (a no-op rather than an error) and still
returns its success payload with the farewell message. -/
theorem end_session_without_controller (fm : String) :
    end_session (none : Option Unit) fm =
      (⟨"end_session", true, fm, "Session ending, disconnecting from room"⟩,
       false) :=
  rfl

/-- Claim C8 counterexample: `set_app_controller` has no once-only guard; after
binding reference 1, a second call with reference 2 rebinds the state to
2, so the state does not stay bound to the first reference. -/
theorem set_app_controller_rebinding :
    set_app_controller (set_app_controller (none : Option Nat) (some 1)) (some 2)
        = some 2 ∧
    set_app_controller (set_app_controller (none : Option Nat) (some 1)) (some 2)
        ≠ some 1 :=
  ⟨rfl, by decide⟩

/-- Claim C8 amended: the controller reference follows last-write-wins — after
any sequence of `set_app_controller` calls, the state is exactly the
argument of the most recent call. -/
theorem set_app_controller_last_call_wins {α : Type} (s0 : Option α)
    (calls : List (Option α)) (c : Option α) :
    applyControllerCalls s0 (calls ++ [c]) = c := by
  unfold applyControllerCalls
  rw [List.foldl_append]
  rfl

/-- Claim C9: concrete run of `authenticate`: the produced credential is
precisely a `(token, room_name)` pair — there is no transport-URL
component in the result of the resolver (its caller `LBToolClient.connect`
nevertheless unpacks three values). -/
theorem authenticate_result_two_components :
    authenticate envFull RemoteOutcome.raised "alice" "default-room" =
      ⟨Except.ok (to_jwt "LKkey" "LKsecret" "alice" "alice" "default-room",
         "default-room"), 1, 1⟩ := by
  rfl

/-- Claim C1: on every remote-fetch outcome other than full success,
`authenticate` does not raise from the remote step: it falls back, attempts
local synthesis exactly once, and (the signing keys being present) returns
the locally synthesized token paired with the fallback room. -/
theorem authenticate_soft_failure_fallback (env : Env)
    (remote : RemoteOutcome) (p r : String)
    (hfail : remoteFullSuccess remote = false)
    (hk : pyTruthy env.livekit_api_key = true)
    (hs : pyTruthy env.livekit_api_secret = true) :
    (authenticate env remote p r).localAttempts = 1 ∧
    ∃ t, generate_token env r (some p) (some p) = Except.ok t ∧
      (authenticate env remote p r).result = Except.ok (t, r) := by
  obtain ⟨t, ht⟩ := generate_token_ok_of_keys env r (some p) (some p) hk hs
  rw [authenticate_fallback_eq env remote p r (Or.inl hfail), ht]
  exact ⟨rfl, t, rfl, rfl⟩

/-- Witness for C1: with keys and device set and the remote call raising,
the credential is locally synthesized for the fallback room in one
attempt. -/
theorem authenticate_soft_failure_fallback_witness :
    (authenticate envFull RemoteOutcome.raised "alice" "room-1").localAttempts
        = 1 ∧
    ∃ t, generate_token envFull "room-1" (some "alice") (some "alice")
        = Except.ok t ∧
      (authenticate envFull RemoteOutcome.raised "alice" "room-1").result
        = Except.ok (t, "room-1") :=
  authenticate_soft_failure_fallback envFull RemoteOutcome.raised
    "alice" "room-1" rfl rfl rfl

/-- Claim C2: when the remote endpoint answers with HTTP success, a true success
flag and non-empty `livekit_token` and `room_name`, `authenticate` returns
exactly that pair and never calls `generate_token`. -/
theorem authenticate_remote_success (env : Env) (d : ApiData)
    (p r T R : String)
    (hdev : pyTruthy env.device_id = true)
    (hsucc : d.success = true)
    (ht : d.livekit_token = some T) (hT : T ≠ "")
    (hr : d.room_name = some R) (hR : R ≠ "") :
    authenticate env (RemoteOutcome.ok d) p r = ⟨Except.ok (T, R), 0, 1⟩ := by
  have hTt : pyTruthy (some T) = true := pyTruthy_some_of_ne hT
  have hRt : pyTruthy (some R) = true := pyTruthy_some_of_ne hR
  have hfetch : get_credentials_from_api env (RemoteOutcome.ok d) p
      = ⟨some T, some R, 1⟩ := by
    unfold get_credentials_from_api
    simp [hdev, hsucc, ht, hr, hTt, hRt]
  simp [authenticate, hfetch, hTt, hRt]

/-- Witness for C2 at a concrete successful remote response. -/
theorem authenticate_remote_success_witness :
    authenticate envFull
        (RemoteOutcome.ok ⟨true, some "T-1", some "R-1", none⟩)
        "alice" "room-1" = ⟨Except.ok ("T-1", "R-1"), 0, 1⟩ :=
  authenticate_remote_success envFull ⟨true, some "T-1", some "R-1", none⟩
    "alice" "room-1" "T-1" "R-1" rfl rfl rfl (by decide) rfl (by decide)

/-- Claim C3: when the fallback path is taken and a signing credential is
absent, `authenticate` surfaces the configuration error (after the single
local attempt) and returns no credential; moreover the configuration error
is the only error `authenticate` ever surfaces. -/
theorem authenticate_config_error (env : Env) (remote : RemoteOutcome)
    (p r : String) :
    ((remoteFullSuccess remote = false ∨ pyTruthy env.device_id = false) →
      (pyTruthy env.livekit_api_key = false ∨
        pyTruthy env.livekit_api_secret = false) →
      (authenticate env remote p r).result = Except.error configErrorMsg ∧
      (authenticate env remote p r).localAttempts = 1) ∧
    (∀ e, (authenticate env remote p r).result = Except.error e →
      e = configErrorMsg) := by
  constructor
  · intro hfb hkeys
    rw [authenticate_fallback_eq env remote p r hfb,
      generate_token_config_error env r (some p) (some p) hkeys]
    exact ⟨rfl, rfl⟩
  · intro e he
    simp only [authenticate] at he
    split at he
    · cases he
    · split at he
      · cases he
      · rename_i e' heq
        have he' : e' = e := Except.error.inj he
        subst he'
        exact generate_token_error_eq env r (some p) (some p) _ heq

/-- Witness for C3: keys absent, remote call raising — the configuration
error is surfaced after one local attempt. -/
theorem authenticate_config_error_witness :
    (authenticate envNoKeys RemoteOutcome.raised "alice" "room-1").result
        = Except.error configErrorMsg ∧
    (authenticate envNoKeys RemoteOutcome.raised "alice" "room-1").localAttempts
        = 1 :=
  (authenticate_config_error envNoKeys RemoteOutcome.raised "alice" "room-1").1
    (Or.inl rfl) (Or.inl rfl)

/-- Claim C10: with `DEVICE_ID` absent, the remote fetch returns the not-found
pair without any network request, and `authenticate` always takes the
local-synthesis path. -/
theorem fetch_without_device (env : Env) (remote : RemoteOutcome)
    (p r : String)
    (hdev : pyTruthy env.device_id = false) :
    get_credentials_from_api env remote p = ⟨none, none, 0⟩ ∧
    (authenticate env remote p r).localAttempts = 1 := by
  constructor
  · unfold get_credentials_from_api
    simp [hdev]
  · rw [authenticate_fallback_eq env remote p r (Or.inr hdev)]
    cases generate_token env r (some p) (some p) <;> rfl

/-- Witness for C10: keys set but no `DEVICE_ID`, remote unreachable. -/
theorem fetch_without_device_witness :
    get_credentials_from_api envNoDevice RemoteOutcome.raised "alice"
        = ⟨none, none, 0⟩ ∧
    (authenticate envNoDevice RemoteOutcome.raised "alice" "room-1").localAttempts
        = 1 :=
  fetch_without_device envNoDevice RemoteOutcome.raised "alice" "room-1" rfl

/-- `dictSet` on a cons whose head already carries the key: in-place
replacement. -/
theorem dictSet_cons_pos {α : Type} (q : String × α) (l : List (String × α))
    (k : String) (v : α) (h : (q.1 == k) = true) :
    dictSet (q :: l) k v = (k, v) :: l := by
  simp [dictSet, h]

/-- `dictSet` on a cons whose head carries another key: recurse. -/
theorem dictSet_cons_neg {α : Type} (q : String × α) (l : List (String × α))
    (k : String) (v : α) (h : ¬ (q.1 == k) = true) :
    dictSet (q :: l) k v = q :: dictSet l k v := by
  simp [dictSet, h]

/-- `dictGet` on a cons whose head carries the key. -/
theorem dictGet_cons_pos {α : Type} (q : String × α) (l : List (String × α))
    (k : String) (h : (q.1 == k) = true) :
    dictGet (q :: l) k = some q.2 := by
  unfold dictGet
  rw [@List.find?_cons_of_pos _ (fun p => p.1 == k) q l h]
  rfl

/-- `dictGet` on a cons whose head carries another key. -/
theorem dictGet_cons_neg {α : Type} (q : String × α) (l : List (String × α))
    (k : String) (h : ¬ (q.1 == k) = true) :
    dictGet (q :: l) k = dictGet l k := by
  unfold dictGet
  rw [@List.find?_cons_of_neg _ (fun p => p.1 == k) q l h]

/-- Looking up the key just set yields the value just set. -/
theorem dictGet_dictSet_self {α : Type} (m : List (String × α)) (k : String)
    (v : α) :
    dictGet (dictSet m k v) k = some v := by
  induction m with
  | nil => simp [dictSet, dictGet]
  | cons q rest ih =>
    by_cases hq : (q.1 == k) = true
    · rw [dictSet_cons_pos _ _ _ _ hq, dictGet_cons_pos _ _ _ (by simp)]
    · rw [dictSet_cons_neg _ _ _ _ hq, dictGet_cons_neg _ _ _ hq, ih]

/-- Setting one key leaves the lookup of every other key unchanged. -/
theorem dictGet_dictSet_ne {α : Type} (m : List (String × α)) (k k' : String)
    (v : α) (h : k' ≠ k) :
    dictGet (dictSet m k v) k' = dictGet m k' := by
  have hkk' : ¬ k = k' := fun he => h he.symm
  induction m with
  | nil =>
    have h1 : ¬ (((k, v) : String × α).1 == k') = true := by simpa using hkk'
    rw [show dictSet ([] : List (String × α)) k v = [(k, v)] from rfl,
      dictGet_cons_neg _ _ _ h1]
  | cons q rest ih =>
    by_cases hq : (q.1 == k) = true
    · have hqk : q.1 = k := by simpa using hq
      have h1 : ¬ (((k, v) : String × α).1 == k') = true := by simpa using hkk'
      have h2 : ¬ (q.1 == k') = true := by
        rw [hqk]; simpa using hkk'
      rw [dictSet_cons_pos _ _ _ _ hq, dictGet_cons_neg _ _ _ h1,
        dictGet_cons_neg _ _ _ h2]
    · by_cases hq' : (q.1 == k') = true
      · rw [dictSet_cons_neg _ _ _ _ hq, dictGet_cons_pos _ _ _ hq',
          dictGet_cons_pos _ _ _ hq']
      · rw [dictSet_cons_neg _ _ _ _ hq, dictGet_cons_neg _ _ _ hq',
          dictGet_cons_neg _ _ _ hq', ih]

/-- Every key of `dictSet m k v` is `k` or a key of `m`. -/
theorem mem_keys_dictSet {α : Type} {m : List (String × α)} {k x : String}
    {v : α}
    (h : x ∈ (dictSet m k v).map Prod.fst) : x = k ∨ x ∈ m.map Prod.fst := by
  induction m with
  | nil =>
    simp [dictSet] at h
    exact Or.inl h
  | cons q rest ih =>
    by_cases hq : (q.1 == k) = true
    · rw [dictSet_cons_pos _ _ _ _ hq] at h
      simp only [List.map_cons, List.mem_cons] at h
      rcases h with h | h
      · exact Or.inl h
      · refine Or.inr ?_
        rw [List.map_cons]
        exact List.mem_cons.mpr (Or.inr h)
    · rw [dictSet_cons_neg _ _ _ _ hq] at h
      simp only [List.map_cons, List.mem_cons] at h
      rcases h with h | h
      · refine Or.inr ?_
        rw [List.map_cons]
        exact List.mem_cons.mpr (Or.inl h)
      · rcases ih h with h' | h'
        · exact Or.inl h'
        · refine Or.inr ?_
          rw [List.map_cons]
          exact List.mem_cons.mpr (Or.inr h')

/-- `dictSet` preserves uniqueness of the registry keys. -/
theorem keysNodup_dictSet {α : Type} {m : List (String × α)} (k : String)
    (v : α)
    (h : keysNodup m) : keysNodup (dictSet m k v) := by
  induction m with
  | nil => simp [dictSet, keysNodup]
  | cons q rest ih =>
    simp only [keysNodup, List.map_cons, List.nodup_cons] at h
    by_cases hq : (q.1 == k) = true
    · have hqk : q.1 = k := by simpa using hq
      rw [dictSet_cons_pos _ _ _ _ hq]
      simp only [keysNodup, List.map_cons, List.nodup_cons]
      exact ⟨hqk ▸ h.1, h.2⟩
    · have hqk : ¬ q.1 = k := by simpa using hq
      rw [dictSet_cons_neg _ _ _ _ hq]
      simp only [keysNodup, List.map_cons, List.nodup_cons]
      refine ⟨fun hmem => ?_, ih h.2⟩
      rcases mem_keys_dictSet hmem with h' | h'
      · exact hqk h'
      · exact h.1 h'

/-- Registrations whose names all differ from `n` leave the lookup of `n`
unchanged. -/
theorem dictGet_registerList_of_ne {α : Type} (m : List (String × α))
    (regs : List (String × α)) (n : String)
    (h : ∀ q ∈ regs, q.1 ≠ n) :
    dictGet (registerList m regs) n = dictGet m n := by
  induction regs generalizing m with
  | nil => rfl
  | cons q rest ih =>
    have hq : q.1 ≠ n := h q (by simp)
    have hrest : ∀ q' ∈ rest, q'.1 ≠ n := fun q' hq' => h q' (by simp [hq'])
    rw [show registerList m (q :: rest)
        = registerList (dictSet m q.1 q.2) rest from rfl,
      ih _ hrest, dictGet_dictSet_ne _ _ _ _ (Ne.symm hq)]

/-- Any sequence of registrations preserves uniqueness of the keys. -/
theorem keysNodup_registerList {α : Type} (m : List (String × α))
    (regs : List (String × α))
    (h : keysNodup m) : keysNodup (registerList m regs) := by
  induction regs generalizing m with
  | nil => exact h
  | cons q rest ih => exact ih _ (keysNodup_dictSet _ _ h)

/-- Claim C5: registering is total (it never raises, also on overwrite); after
any earlier registrations `pre`, registering `v` under `n` and then any
further registrations `post` under other names, the lookup of `n` returns
the most recent handler `v` (last write wins), and the registry names
stay unique keys throughout. -/
theorem registry_last_write_wins {α : Type} (m pre post : List (String × α))
    (n : String) (v : α)
    (hpost : ∀ q ∈ post, q.1 ≠ n) (hm : keysNodup m) :
    dictGet (registerList (dictSet (registerList m pre) n v) post) n = some v ∧
    keysNodup (registerList (dictSet (registerList m pre) n v) post) := by
  constructor
  · rw [dictGet_registerList_of_ne _ _ _ hpost, dictGet_dictSet_self]
  · exact keysNodup_registerList _ _
      (keysNodup_dictSet _ _ (keysNodup_registerList _ _ hm))

/-- Witness for C5: "n" is registered twice (value 2 then 3); the lookup
returns the most recent value 3 and the keys stay unique. -/
theorem registry_last_write_wins_witness :
    dictGet (registerList (dictSet
        (registerList ([] : List (String × Nat)) [("a", 1), ("n", 2)])
        "n" 3) [("b", 4)]) "n" = some 3 ∧
    keysNodup (registerList (dictSet
        (registerList ([] : List (String × Nat)) [("a", 1), ("n", 2)])
        "n" 3) [("b", 4)]) :=
  registry_last_write_wins [] [("a", 1), ("n", 2)] [("b", 4)] "n" 3
    (by decide) (by simp [keysNodup])

/-- Claim C4: a handler that raises yields an `InvocationResult` with
`success = false`, the stringified failure as error description and the
tool name preserved; the failure never escapes `dispatch` (its return type
is a result, not an exception), and the registry is left untouched, so
subsequent dispatches behave as if the failing call had not happened. -/
theorem dispatch_handler_failure (reg : ToolRegistry) (n : String)
    (h : ToolHandler) (args : ToolArgs) (e : String)
    (hreg : dictGet reg n = some h) (herr : h args = Except.error e) :
    dispatch reg ⟨n, args⟩ = (⟨n, false, none, some e⟩, reg) ∧
    ∀ req, dispatch (dispatch reg ⟨n, args⟩).2 req = dispatch reg req := by
  have hd : dispatch reg ⟨n, args⟩ = (⟨n, false, none, some e⟩, reg) := by
    simp [dispatch, hreg, herr]
  exact ⟨hd, fun req => by rw [hd]⟩

/-- Witness for C4: dispatching the always-raising handler "boom" returns
the wrapped failure and leaves the registry usable and unchanged. -/
theorem dispatch_handler_failure_witness :
    dispatch regWithFail ⟨"boom", []⟩
        = (⟨"boom", false, none, some "ValueError: boom"⟩, regWithFail) ∧
    dispatch (dispatch regWithFail ⟨"boom", []⟩).2 ⟨"boom", []⟩
        = dispatch regWithFail ⟨"boom", []⟩ :=
  ⟨(dispatch_handler_failure regWithFail "boom" failHandler []
      "ValueError: boom" rfl rfl).1,
   (dispatch_handler_failure regWithFail "boom" failHandler []
      "ValueError: boom" rfl rfl).2 ⟨"boom", []⟩⟩

end LB
